import Mathlib

/-!
Shallow embedding of the ANPP protocol implementation
(src/Protocol.hpp and src/Protocol.cpp of drivers-advanced_navigation_anpp).

Byte buffers are modelled as `List Nat`, each entry a byte value 0..255
(the C++ iterators range over `uint8_t`).  Multi-byte values are `Nat`
with explicit `% 2^w` truncation at the points where the C++ code assigns
into fixed-width integers.  `float`/`double` fields carry the raw 32/64-bit
little-endian bit pattern as a `Nat` (the C++ `read32<float>`/`read64<double>`
reinterpret the integer bits; the embedding stays at the bit level).
Fallible decoders (`unmarshal`, which `throw std::length_error` in C++)
return `Except String`, carrying the exact C++ error message.
-/

namespace protocol

/-- Byte at index `i` of a buffer (C++ `begin[i]` on a `uint8_t` iterator).
Out-of-range access is never exercised by the decoders, which validate the
length first; `getD` makes the function total. -/
def byteAt (l : List Nat) (i : Nat) : Nat :=
  l.getD i 0

/-- `read16` of Protocol.hpp: little-endian, `b0 | b1 << 8`.  Over byte
values the disjoint bitwise-or is plain addition. -/
def read16 (l : List Nat) (o : Nat) : Nat :=
  byteAt l o + byteAt l (o + 1) * 256

/-- `read32` of Protocol.hpp: little-endian, `b0 | b1<<8 | b2<<16 | b3<<24`. -/
def read32 (l : List Nat) (o : Nat) : Nat :=
  byteAt l o + byteAt l (o + 1) * 256 + byteAt l (o + 2) * 65536
    + byteAt l (o + 3) * 16777216

/-- `read64` of Protocol.hpp: little-endian over 8 bytes. -/
def read64 (l : List Nat) (o : Nat) : Nat :=
  byteAt l o + byteAt l (o + 1) * 256 + byteAt l (o + 2) * 65536
    + byteAt l (o + 3) * 16777216 + byteAt l (o + 4) * 4294967296
    + byteAt l (o + 5) * 1099511627776 + byteAt l (o + 6) * 281474976710656
    + byteAt l (o + 7) * 72057594037927936

/-- `write16` of Protocol.hpp: the two bytes stored at `out[0], out[1]`
(`value & 0xFF`, `(value >> 8) & 0xFF`). -/
def write16 (v : Nat) : List Nat :=
  [v % 256, v / 256 % 256]

/-- `write32` of Protocol.hpp: the four bytes stored at `out[0] .. out[3]`. -/
def write32 (v : Nat) : List Nat :=
  [v % 256, v / 256 % 256, v / 65536 % 256, v / 16777216 % 256]

/-- `write64` of Protocol.hpp.  The C++ function stores the value's bytes
1..7 at `out[1] .. out[7]` and never stores anything at `out[0]`; it is
modelled as an update of the output buffer so that this frame effect is
visible. -/
def write64 (out : List Nat) (v : Nat) : List Nat :=
  ((((((out.set 1 (v / 256 % 256)).set 2 (v / 65536 % 256)).set 3
      (v / 16777216 % 256)).set 4 (v / 4294967296 % 256)).set 5
      (v / 1099511627776 % 256)).set 6 (v / 281474976710656 % 256)).set 7
      (v / 72057594037927936 % 256)

/-! ## CRC engine (Protocol.cpp, `protocol::crc`)

`boost::crc_ccitt_type` is the 16-bit CRC with polynomial 0x1021, initial
remainder 0xFFFF, no reflection and no final xor: for each input byte the
remainder is xored with `byte << 8` and then shifted left 8 times, xoring
in the polynomial whenever the top bit falls out. -/

/-- One left shift of the 16-bit CRC remainder. -/
def crcShift (r : Nat) : Nat :=
  if r / 32768 % 2 = 1 then ((r * 2) ^^^ 0x1021) % 65536 else (r * 2) % 65536

/-- Process one input byte into the CRC remainder. -/
def crcByte (r b : Nat) : Nat :=
  crcShift^[8] (r ^^^ (b % 256) * 256)

/-- `protocol::crc(begin, end)`: CRC-CCITT, seed 0xFFFF, over the bytes. -/
def crc (l : List Nat) : Nat :=
  l.foldl crcByte 65535

/-! ## Header codec (Protocol.cpp) -/

/-- The 5-byte packet header.  Every field is a `uint8_t` in the C++
struct; the embedding stores each as a `Nat` (byte-valued in any header
that comes off the wire or out of the constructor). -/
structure Header where
  header_checksum : Nat
  packet_id : Nat
  payload_length : Nat
  payload_checksum_lsb : Nat
  payload_checksum_msb : Nat
deriving Repr, DecidableEq

/-- `Header::computeHeaderChecksum`: the C++ computes
`((packet_id + payload_length + crc_lsb + crc_msb) ^ 0xFF) + 1` in `int`
arithmetic and truncates through the `uint8_t` return type. -/
def Header.computeHeaderChecksum (h : Header) : Nat :=
  (((h.packet_id + h.payload_length + h.payload_checksum_lsb
      + h.payload_checksum_msb) ^^^ 0xFF) + 1) % 256

/-- `Header::isValid`. -/
def Header.isValid (h : Header) : Bool :=
  h.header_checksum == h.computeHeaderChecksum

/-- `Header::Header(uint8_t packet_id, uint8_t const* begin, uint8_t const* end)`:
`payload_length = end - begin` truncated through `uint8_t`, payload checksum
from `protocol::crc`, header checksum from `computeHeaderChecksum`. -/
def Header.ofPayload (packet_id : Nat) (payload : List Nat) : Header :=
  let checksum := crc payload
  let base : Header :=
    { header_checksum := 0
      packet_id := packet_id % 256
      payload_length := payload.length % 256
      payload_checksum_lsb := checksum % 256
      payload_checksum_msb := checksum / 256 % 256 }
  { base with header_checksum := base.computeHeaderChecksum }

/-- `Header::isPacketValid(begin, end)`: false on a length mismatch,
otherwise compares both payload checksum bytes against the recomputed CRC. -/
def Header.isPacketValid (h : Header) (payload : List Nat) : Bool :=
  if h.payload_length ≠ payload.length then
    false
  else
    let checksum := crc payload
    h.payload_checksum_lsb == checksum % 256
      && h.payload_checksum_msb == checksum / 256 % 256

/-! ## Acknowledge (Protocol.cpp / Protocol.hpp) -/

/-- The `ACK_RESULTS` codes. -/
def ACK_SUCCESS : Nat := 0
def ACK_FAILED_PACKET_VALIDATION_CRC : Nat := 1
def ACK_FAILED_PACKET_VALIDATION_SIZE : Nat := 2
def ACK_FAILED_OUT_OF_RANGE : Nat := 3
def ACK_FAILED_SYSTEM_FLASH_FAILURE : Nat := 4
def ACK_FAILED_SYSTEM_NOT_READY : Nat := 5
def ACK_FAILED_UNKNOWN_PACKET : Nat := 6

/-- The `Acknowledge` packet (packet id 0, 4 bytes). -/
structure Acknowledge where
  acked_packet_id : Nat
  acked_payload_checksum_lsb : Nat
  acked_payload_checksum_msb : Nat
  result : Nat
deriving Repr, DecidableEq

/-- `Acknowledge::isMatching`. -/
def Acknowledge.isMatching (a : Acknowledge) (header : Header) : Bool :=
  a.acked_packet_id == header.packet_id
    && a.acked_payload_checksum_lsb == header.payload_checksum_lsb
    && a.acked_payload_checksum_msb == header.payload_checksum_msb

/-- `Acknowledge::isSuccess`. -/
def Acknowledge.isSuccess (a : Acknowledge) : Bool :=
  a.result == ACK_SUCCESS

/-- `Acknowledge::isPacketValidationFailure`. -/
def Acknowledge.isPacketValidationFailure (a : Acknowledge) : Bool :=
  a.result == ACK_FAILED_PACKET_VALIDATION_CRC
    || a.result == ACK_FAILED_PACKET_VALIDATION_SIZE

/-- `Acknowledge::isProtocolError`. -/
def Acknowledge.isProtocolError (a : Acknowledge) : Bool :=
  a.result == ACK_FAILED_OUT_OF_RANGE
    || a.result == ACK_FAILED_UNKNOWN_PACKET

/-- `Acknowledge::isSystemError`. -/
def Acknowledge.isSystemError (a : Acknowledge) : Bool :=
  a.result == ACK_FAILED_SYSTEM_FLASH_FAILURE

/-- `Acknowledge::isNotReady`. -/
def Acknowledge.isNotReady (a : Acknowledge) : Bool :=
  a.result == ACK_FAILED_SYSTEM_NOT_READY

/-- `Acknowledge::unmarshal`. -/
def Acknowledge.unmarshal (bs : List Nat) : Except String Acknowledge :=
  if bs.length ≠ 4 then
    Except.error "Acknowledge::unmarshal buffer size not the expected size"
  else
    Except.ok
      { acked_packet_id := byteAt bs 0
        acked_payload_checksum_lsb := byteAt bs 1
        acked_payload_checksum_msb := byteAt bs 2
        result := byteAt bs 3 }

/-! ## Packet codec catalog (Protocol.hpp)

Fixed-size packets follow the source layout byte for byte; `float` and
`double` fields hold the little-endian bit pattern as a `Nat`. -/

/-- `BootMode` (id 2, 1 byte). -/
structure BootMode where
  boot_mode : Nat
deriving Repr, DecidableEq

/-- `BootMode::marshal`: `*out = boot_mode` (a `uint8_t` store). -/
def BootMode.marshal (b : BootMode) : List Nat :=
  [b.boot_mode % 256]

/-- `BootMode::unmarshal`. -/
def BootMode.unmarshal (bs : List Nat) : Except String BootMode :=
  if bs.length ≠ 1 then
    Except.error "BootMode::unmarshal: buffer size is not expected size"
  else
    Except.ok { boot_mode := byteAt bs 0 }

/-- `DeviceInformation` (id 3, 24 bytes, decode only). -/
structure DeviceInformation where
  software_version : Nat
  device_id : Nat
  hardware_revision : Nat
  serial_number_part0 : Nat
  serial_number_part1 : Nat
  serial_number_part2 : Nat
deriving Repr, DecidableEq

/-- `DeviceInformation::unmarshal`. -/
def DeviceInformation.unmarshal (bs : List Nat) :
    Except String DeviceInformation :=
  if bs.length ≠ 24 then
    Except.error "DeviceInformation::unmarshal: buffer size is not expected size"
  else
    Except.ok
      { software_version := read32 bs 0
        device_id := read32 bs 4
        hardware_revision := read32 bs 8
        serial_number_part0 := read32 bs 12
        serial_number_part1 := read32 bs 16
        serial_number_part2 := read32 bs 20 }

/-- `SystemState` (id 20, 100 bytes, decode only).  Three-element C arrays
are triples; `double` entries are 64-bit patterns, `float` 32-bit. -/
structure SystemState where
  system_status : Nat
  filter_status : Nat
  unix_time_seconds : Nat
  unix_time_microseconds : Nat
  lat_lon_z : Nat × Nat × Nat
  velocity_ned : Nat × Nat × Nat
  body_acceleration_xyz : Nat × Nat × Nat
  g : Nat
  rpy : Nat × Nat × Nat
  angular_velocity : Nat × Nat × Nat
  lat_lon_z_stddev : Nat × Nat × Nat
deriving Repr, DecidableEq

/-- `SystemState::unmarshal`: field offsets exactly as in the source. -/
def SystemState.unmarshal (bs : List Nat) : Except String SystemState :=
  if bs.length ≠ 100 then
    Except.error "SystemState::unmarshal buffer size not the expected size"
  else
    Except.ok
      { system_status := read16 bs 0
        filter_status := read16 bs 2
        unix_time_seconds := read32 bs 4
        unix_time_microseconds := read32 bs 8
        lat_lon_z := (read64 bs 12, read64 bs 20, read64 bs 28)
        velocity_ned := (read32 bs 36, read32 bs 40, read32 bs 44)
        body_acceleration_xyz := (read32 bs 48, read32 bs 52, read32 bs 56)
        g := read32 bs 60
        rpy := (read32 bs 64, read32 bs 68, read32 bs 72)
        angular_velocity := (read32 bs 76, read32 bs 80, read32 bs 84)
        lat_lon_z_stddev := (read32 bs 88, read32 bs 92, read32 bs 96) }

/-- `UnixTime` (id 21, 8 bytes). -/
structure UnixTime where
  seconds : Nat
  microseconds : Nat
deriving Repr, DecidableEq

/-- `UnixTime::unmarshal` (the error message is the source's copy-pasted
`SystemState` text). -/
def UnixTime.unmarshal (bs : List Nat) : Except String UnixTime :=
  if bs.length ≠ 8 then
    Except.error "SystemState::unmarshal buffer size not the expected size"
  else
    Except.ok { seconds := read32 bs 0, microseconds := read32 bs 4 }

/-- `Status` (id 23, 4 bytes). -/
structure Status where
  system_status : Nat
  filter_status : Nat
deriving Repr, DecidableEq

/-- `Status::unmarshal`. -/
def Status.unmarshal (bs : List Nat) : Except String Status :=
  if bs.length ≠ 4 then
    Except.error "SystemState::unmarshal buffer size not the expected size"
  else
    Except.ok { system_status := read16 bs 0, filter_status := read16 bs 2 }

/-- `GeodeticPositionStandardDeviation` (id 24, 12 bytes). -/
structure GeodeticPositionStandardDeviation where
  lat_lon_z_stddev : Nat × Nat × Nat
deriving Repr, DecidableEq

/-- `GeodeticPositionStandardDeviation::unmarshal`. -/
def GeodeticPositionStandardDeviation.unmarshal (bs : List Nat) :
    Except String GeodeticPositionStandardDeviation :=
  if bs.length ≠ 12 then
    Except.error "SystemState::unmarshal buffer size not the expected size"
  else
    Except.ok { lat_lon_z_stddev := (read32 bs 0, read32 bs 4, read32 bs 8) }

/-- `NEDVelocityStandardDeviation` (id 25, 12 bytes). -/
structure NEDVelocityStandardDeviation where
  ned : Nat × Nat × Nat
deriving Repr, DecidableEq

/-- `NEDVelocityStandardDeviation::unmarshal`. -/
def NEDVelocityStandardDeviation.unmarshal (bs : List Nat) :
    Except String NEDVelocityStandardDeviation :=
  if bs.length ≠ 12 then
    Except.error "NEDVelocityStandardDeviation::unmarshal buffer size not the expected size"
  else
    Except.ok { ned := (read32 bs 0, read32 bs 4, read32 bs 8) }

/-- `EulerOrientationStandardDeviation` (id 26, 12 bytes). -/
structure EulerOrientationStandardDeviation where
  rpy : Nat × Nat × Nat
deriving Repr, DecidableEq

/-- `EulerOrientationStandardDeviation::unmarshal`. -/
def EulerOrientationStandardDeviation.unmarshal (bs : List Nat) :
    Except String EulerOrientationStandardDeviation :=
  if bs.length ≠ 12 then
    Except.error "EulerOrientationStandardDeviation::unmarshal buffer size not the expected size"
  else
    Except.ok { rpy := (read32 bs 0, read32 bs 4, read32 bs 8) }

/-- `RawSensors` (id 28, 48 bytes). -/
structure RawSensors where
  accelerometers_xyz : Nat × Nat × Nat
  gyroscope_xyz : Nat × Nat × Nat
  magnetometer_xyz : Nat × Nat × Nat
  imu_temperature_C : Nat
  pressure : Nat
  pressure_temperature_C : Nat
deriving Repr, DecidableEq

/-- `RawSensors::unmarshal`. -/
def RawSensors.unmarshal (bs : List Nat) : Except String RawSensors :=
  if bs.length ≠ 48 then
    Except.error "RawSensors::unmarshal buffer size not the expected size"
  else
    Except.ok
      { accelerometers_xyz := (read32 bs 0, read32 bs 4, read32 bs 8)
        gyroscope_xyz := (read32 bs 12, read32 bs 16, read32 bs 20)
        magnetometer_xyz := (read32 bs 24, read32 bs 28, read32 bs 32)
        imu_temperature_C := read32 bs 36
        pressure := read32 bs 40
        pressure_temperature_C := read32 bs 44 }

/-- `RawGNSS` (id 29, 74 bytes). -/
structure RawGNSS where
  unix_time_seconds : Nat
  unix_time_microseconds : Nat
  lat_lon_z : Nat × Nat × Nat
  velocity_ned : Nat × Nat × Nat
  lat_lon_z_stddev : Nat × Nat × Nat
  pitch : Nat
  yaw : Nat
  pitch_stddev : Nat
  yaw_stddev : Nat
  status : Nat
deriving Repr, DecidableEq

/-- `RawGNSS::unmarshal`. -/
def RawGNSS.unmarshal (bs : List Nat) : Except String RawGNSS :=
  if bs.length ≠ 74 then
    Except.error "RawGNSS::unmarshal buffer size not the expected size"
  else
    Except.ok
      { unix_time_seconds := read32 bs 0
        unix_time_microseconds := read32 bs 4
        lat_lon_z := (read64 bs 8, read64 bs 16, read64 bs 24)
        velocity_ned := (read32 bs 32, read32 bs 36, read32 bs 40)
        lat_lon_z_stddev := (read32 bs 44, read32 bs 48, read32 bs 52)
        pitch := read32 bs 56
        yaw := read32 bs 60
        pitch_stddev := read32 bs 64
        yaw_stddev := read32 bs 68
        status := read16 bs 72 }

/-- `Satellites` (id 30, 13 bytes). -/
structure Satellites where
  hdop : Nat
  vdop : Nat
  gps_satellite_count : Nat
  glonass_satellite_count : Nat
  beidou_satellite_count : Nat
  galileo_satellite_count : Nat
  sbas_satellite_count : Nat
deriving Repr, DecidableEq

/-- `Satellites::unmarshal`. -/
def Satellites.unmarshal (bs : List Nat) : Except String Satellites :=
  if bs.length ≠ 13 then
    Except.error "Satellites::unmarshal buffer size not the expected size"
  else
    Except.ok
      { hdop := read32 bs 0
        vdop := read32 bs 4
        gps_satellite_count := byteAt bs 8
        glonass_satellite_count := byteAt bs 9
        beidou_satellite_count := byteAt bs 10
        galileo_satellite_count := byteAt bs 11
        sbas_satellite_count := byteAt bs 12 }

/-- `SatelliteInfo` (7-byte record of `DetailedSatellites`). -/
structure SatelliteInfo where
  system : Nat
  prn : Nat
  frequencies : Nat
  elevation : Nat
  azimuth : Nat
  snr : Nat
deriving Repr, DecidableEq

/-- `SatelliteInfo::unmarshal` — note the source performs no length check
here; the caller (`DetailedSatellites::unmarshal`) hands it exactly 7
bytes. -/
def SatelliteInfo.unmarshal (bs : List Nat) : SatelliteInfo :=
  { system := byteAt bs 0
    prn := byteAt bs 1
    frequencies := byteAt bs 2
    elevation := byteAt bs 3
    azimuth := read16 bs 4
    snr := byteAt bs 6 }

/-- `DetailedSatellites::unmarshal` (id 31, variable, stride 7, no prefix):
the source loop consumes one 7-byte record per iteration, appending to the
output vector. -/
def DetailedSatellites.unmarshal (bs : List Nat) :
    Except String (List SatelliteInfo) :=
  if bs.length % 7 ≠ 0 then
    Except.error "Satellites::unmarshal buffer is not a multiple of the SatelliteInfo size"
  else
    Except.ok ((List.range (bs.length / 7)).map
      (fun i => SatelliteInfo.unmarshal (bs.drop (7 * i))))

/-- `NEDVelocity` (id 35, 12 bytes). -/
structure NEDVelocity where
  ned : Nat × Nat × Nat
deriving Repr, DecidableEq

/-- `NEDVelocity::unmarshal`. -/
def NEDVelocity.unmarshal (bs : List Nat) : Except String NEDVelocity :=
  if bs.length ≠ 12 then
    Except.error "NEDVelocity::unmarshal buffer is not of the expected size"
  else
    Except.ok { ned := (read32 bs 0, read32 bs 4, read32 bs 8) }

/-- `BodyVelocity` (id 36, 12 bytes). -/
structure BodyVelocity where
  xyz : Nat × Nat × Nat
deriving Repr, DecidableEq

/-- `BodyVelocity::unmarshal`. -/
def BodyVelocity.unmarshal (bs : List Nat) : Except String BodyVelocity :=
  if bs.length ≠ 12 then
    Except.error "BodyVelocity::unmarshal buffer is not of the expected size"
  else
    Except.ok { xyz := (read32 bs 0, read32 bs 4, read32 bs 8) }

/-- `Acceleration` (id 37, 12 bytes). -/
structure Acceleration where
  xyz : Nat × Nat × Nat
deriving Repr, DecidableEq

/-- `Acceleration::unmarshal`. -/
def Acceleration.unmarshal (bs : List Nat) : Except String Acceleration :=
  if bs.length ≠ 12 then
    Except.error "Acceleration::unmarshal buffer is not of the expected size"
  else
    Except.ok { xyz := (read32 bs 0, read32 bs 4, read32 bs 8) }

/-- `BodyAcceleration` (id 38, 16 bytes). -/
structure BodyAcceleration where
  xyz : Nat × Nat × Nat
  g : Nat
deriving Repr, DecidableEq

/-- `BodyAcceleration::unmarshal`. -/
def BodyAcceleration.unmarshal (bs : List Nat) :
    Except String BodyAcceleration :=
  if bs.length ≠ 16 then
    Except.error "BodyAcceleration::unmarshal buffer is not of the expected size"
  else
    Except.ok { xyz := (read32 bs 0, read32 bs 4, read32 bs 8), g := read32 bs 12 }

/-- `QuaternionOrientation` (id 40, 16 bytes). -/
structure QuaternionOrientation where
  im : Nat
  xyz : Nat × Nat × Nat
deriving Repr, DecidableEq

/-- `QuaternionOrientation::unmarshal`. -/
def QuaternionOrientation.unmarshal (bs : List Nat) :
    Except String QuaternionOrientation :=
  if bs.length ≠ 16 then
    Except.error "QuaternionOrientation::unmarshal buffer is not of the expected size"
  else
    Except.ok { im := read32 bs 0, xyz := (read32 bs 4, read32 bs 8, read32 bs 12) }

/-- `AngularVelocity` (id 42, 12 bytes). -/
structure AngularVelocity where
  xyz : Nat × Nat × Nat
deriving Repr, DecidableEq

/-- `AngularVelocity::unmarshal`. -/
def AngularVelocity.unmarshal (bs : List Nat) : Except String AngularVelocity :=
  if bs.length ≠ 12 then
    Except.error "AngularVelocity::unmarshal buffer is not of the expected size"
  else
    Except.ok { xyz := (read32 bs 0, read32 bs 4, read32 bs 8) }

/-- `AngularAcceleration` (id 43, 12 bytes). -/
structure AngularAcceleration where
  xyz : Nat × Nat × Nat
deriving Repr, DecidableEq

/-- `AngularAcceleration::unmarshal`. -/
def AngularAcceleration.unmarshal (bs : List Nat) :
    Except String AngularAcceleration :=
  if bs.length ≠ 12 then
    Except.error "AngularAcceleration::unmarshal buffer is not of the expected size"
  else
    Except.ok { xyz := (read32 bs 0, read32 bs 4, read32 bs 8) }

/-- `LocalMagneticField` (id 50, 12 bytes). -/
structure LocalMagneticField where
  xyz : Nat × Nat × Nat
deriving Repr, DecidableEq

/-- `LocalMagneticField::unmarshal`. -/
def LocalMagneticField.unmarshal (bs : List Nat) :
    Except String LocalMagneticField :=
  if bs.length ≠ 12 then
    Except.error "LocalMagneticField::unmarshal buffer is not of the expected size"
  else
    Except.ok { xyz := (read32 bs 0, read32 bs 4, read32 bs 8) }

/-- `PacketTimerPeriod` (id 180, 4 bytes). -/
structure PacketTimerPeriod where
  permanent : Nat
  utc_synchronization : Nat
  period : Nat
deriving Repr, DecidableEq

/-- `PacketTimerPeriod::marshal`:
`out[0] = permanent; out[1] = utc_synchronization; write16(out+2, period)`. -/
def PacketTimerPeriod.marshal (p : PacketTimerPeriod) : List Nat :=
  [p.permanent % 256, p.utc_synchronization % 256] ++ write16 p.period

/-- `PacketTimerPeriod::unmarshal`: sets `permanent = 0` and never reads
byte 0 of the input. -/
def PacketTimerPeriod.unmarshal (bs : List Nat) :
    Except String PacketTimerPeriod :=
  if bs.length ≠ 4 then
    Except.error "PacketTimerPeriod::unmarshal buffer size not the expected size"
  else
    Except.ok
      { permanent := 0
        utc_synchronization := byteAt bs 1
        period := read16 bs 2 }

/-- One `std::map<uint8_t, uint32_t>` assignment `m[k] = v`: insert keeping
the keys sorted, overwriting an existing entry. -/
def mapInsert : List (Nat × Nat) → Nat → Nat → List (Nat × Nat)
  | [], k, v => [(k, v)]
  | (k', v') :: rest, k, v =>
    if k < k' then (k, v) :: (k', v') :: rest
    else if k = k' then (k, v) :: rest
    else (k', v') :: mapInsert rest k v

/-- `PacketPeriods::unmarshal` (id 181, base 2 bytes, stride 5): after the
2-byte prefix, each record is `packet id` + 32-bit period, collected into
a `std::map`. -/
def PacketPeriods.unmarshal (bs : List Nat) :
    Except String (List (Nat × Nat)) :=
  if bs.length < 2 then
    Except.error "PacketPeriods::unmarshal buffer too small"
  else if (bs.length - 2) % 5 ≠ 0 then
    Except.error "PacketPeriods::unmarshal expected period list to be a multiple of 5"
  else
    Except.ok ((List.range ((bs.length - 2) / 5)).foldl
      (fun m i => mapInsert m (byteAt bs (2 + 5 * i)) (read32 bs (3 + 5 * i))) [])

/-- `BaudRates` (id 182, 17 bytes). -/
structure BaudRates where
  permanent : Nat
  primary_port : Nat
  gpio : Nat
  auxiliary_rs232 : Nat
  reserved : Nat
deriving Repr, DecidableEq

/-- `BaudRates::marshal`: the reserved word is written as a literal zero. -/
def BaudRates.marshal (b : BaudRates) : List Nat :=
  [b.permanent % 256] ++ write32 b.primary_port ++ write32 b.gpio
    ++ write32 b.auxiliary_rs232 ++ write32 0

/-- `BaudRates::unmarshal`: `permanent` and `reserved` are literal zeros. -/
def BaudRates.unmarshal (bs : List Nat) : Except String BaudRates :=
  if bs.length ≠ 17 then
    Except.error "BaudRates::unmarshal buffer size not the expected size"
  else
    Except.ok
      { permanent := 0
        primary_port := read32 bs 1
        gpio := read32 bs 5
        auxiliary_rs232 := read32 bs 9
        reserved := 0 }

/-- `Alignment` (id 185, 73 bytes).  The C arrays `dcm[9]`,
`gnss_antenna_offset_xyz[3]`, `odometer_offset_xyz[3]`,
`external_data_offset_xyz[3]` are `List Nat` of 32-bit float patterns. -/
structure Alignment where
  permanent : Nat
  dcm : List Nat
  gnss_antenna_offset_xyz : List Nat
  odometer_offset_xyz : List Nat
  external_data_offset_xyz : List Nat
deriving Repr, DecidableEq

/-- `Alignment::marshal`: `permanent` at byte 0, `dcm[i]` at `1 + 4i`,
the three offset vectors at 37, 49 and 61 — the loops write contiguous
4-byte chunks, so the buffer is the concatenation below. -/
def Alignment.marshal (a : Alignment) : List Nat :=
  [a.permanent % 256]
    ++ write32 (a.dcm.getD 0 0) ++ write32 (a.dcm.getD 1 0)
    ++ write32 (a.dcm.getD 2 0) ++ write32 (a.dcm.getD 3 0)
    ++ write32 (a.dcm.getD 4 0) ++ write32 (a.dcm.getD 5 0)
    ++ write32 (a.dcm.getD 6 0) ++ write32 (a.dcm.getD 7 0)
    ++ write32 (a.dcm.getD 8 0)
    ++ write32 (a.gnss_antenna_offset_xyz.getD 0 0)
    ++ write32 (a.gnss_antenna_offset_xyz.getD 1 0)
    ++ write32 (a.gnss_antenna_offset_xyz.getD 2 0)
    ++ write32 (a.odometer_offset_xyz.getD 0 0)
    ++ write32 (a.odometer_offset_xyz.getD 1 0)
    ++ write32 (a.odometer_offset_xyz.getD 2 0)
    ++ write32 (a.external_data_offset_xyz.getD 0 0)
    ++ write32 (a.external_data_offset_xyz.getD 1 0)
    ++ write32 (a.external_data_offset_xyz.getD 2 0)

/-- `Alignment::unmarshal`: `permanent = 0`, fields read back from the
same offsets. -/
def Alignment.unmarshal (bs : List Nat) : Except String Alignment :=
  if bs.length ≠ 73 then
    Except.error "Alignment::unmarshal buffer size not the expected size"
  else
    Except.ok
      { permanent := 0
        dcm := [read32 bs 1, read32 bs 5, read32 bs 9, read32 bs 13,
                read32 bs 17, read32 bs 21, read32 bs 25, read32 bs 29,
                read32 bs 33]
        gnss_antenna_offset_xyz := [read32 bs 37, read32 bs 41, read32 bs 45]
        odometer_offset_xyz := [read32 bs 49, read32 bs 53, read32 bs 57]
        external_data_offset_xyz := [read32 bs 61, read32 bs 65, read32 bs 69] }

/-- `FilterOptions` (id 186, 17 bytes); `reserved_1` is the 9-byte tail. -/
structure FilterOptions where
  permanent : Nat
  vehicle_type : Nat
  enabled_internal_gnss : Nat
  reserved_0 : Nat
  enabled_atmospheric_altitude : Nat
  enabled_velocity_heading : Nat
  enabled_reversing_detection : Nat
  enabled_motion_analysis : Nat
  reserved_1 : List Nat
deriving Repr, DecidableEq

/-- `FilterOptions::marshal`: a byte-for-byte copy of the packed struct
(`std::copy(&permanent, reserved_1 + 9, out)`). -/
def FilterOptions.marshal (f : FilterOptions) : List Nat :=
  [f.permanent % 256, f.vehicle_type % 256, f.enabled_internal_gnss % 256,
   f.reserved_0 % 256, f.enabled_atmospheric_altitude % 256,
   f.enabled_velocity_heading % 256, f.enabled_reversing_detection % 256,
   f.enabled_motion_analysis % 256]
    ++ [f.reserved_1.getD 0 0 % 256, f.reserved_1.getD 1 0 % 256,
        f.reserved_1.getD 2 0 % 256, f.reserved_1.getD 3 0 % 256,
        f.reserved_1.getD 4 0 % 256, f.reserved_1.getD 5 0 % 256,
        f.reserved_1.getD 6 0 % 256, f.reserved_1.getD 7 0 % 256,
        f.reserved_1.getD 8 0 % 256]

/-- `FilterOptions::unmarshal`: `permanent = 0`, then
`std::copy(begin + 1, end, &out.vehicle_type)` fills the remaining 16
bytes of the packed struct in order (the source's error message names
`MagneticCalibrationValues`). -/
def FilterOptions.unmarshal (bs : List Nat) : Except String FilterOptions :=
  if bs.length ≠ 17 then
    Except.error "MagneticCalibrationValues::unmarshal buffer size not the expected size"
  else
    Except.ok
      { permanent := 0
        vehicle_type := byteAt bs 1
        enabled_internal_gnss := byteAt bs 2
        reserved_0 := byteAt bs 3
        enabled_atmospheric_altitude := byteAt bs 4
        enabled_velocity_heading := byteAt bs 5
        enabled_reversing_detection := byteAt bs 6
        enabled_motion_analysis := byteAt bs 7
        reserved_1 := [byteAt bs 8, byteAt bs 9, byteAt bs 10, byteAt bs 11,
                       byteAt bs 12, byteAt bs 13, byteAt bs 14, byteAt bs 15,
                       byteAt bs 16] }

/-- `MagneticCalibrationValues` (id 189, 49 bytes). -/
structure MagneticCalibrationValues where
  permanent : Nat
  hard_iron_bias_xyz : List Nat
  soft_iron_transformation : List Nat
deriving Repr, DecidableEq

/-- `MagneticCalibrationValues::marshal`: `permanent` at byte 0,
`hard_iron_bias_xyz[i]` at `1 + 4i`, `soft_iron_transformation[i]` at
`13 + 4i`. -/
def MagneticCalibrationValues.marshal (m : MagneticCalibrationValues) :
    List Nat :=
  [m.permanent % 256]
    ++ write32 (m.hard_iron_bias_xyz.getD 0 0)
    ++ write32 (m.hard_iron_bias_xyz.getD 1 0)
    ++ write32 (m.hard_iron_bias_xyz.getD 2 0)
    ++ write32 (m.soft_iron_transformation.getD 0 0)
    ++ write32 (m.soft_iron_transformation.getD 1 0)
    ++ write32 (m.soft_iron_transformation.getD 2 0)
    ++ write32 (m.soft_iron_transformation.getD 3 0)
    ++ write32 (m.soft_iron_transformation.getD 4 0)
    ++ write32 (m.soft_iron_transformation.getD 5 0)
    ++ write32 (m.soft_iron_transformation.getD 6 0)
    ++ write32 (m.soft_iron_transformation.getD 7 0)
    ++ write32 (m.soft_iron_transformation.getD 8 0)

/-- `MagneticCalibrationValues::unmarshal`: `permanent = 0`. -/
def MagneticCalibrationValues.unmarshal (bs : List Nat) :
    Except String MagneticCalibrationValues :=
  if bs.length ≠ 49 then
    Except.error "MagneticCalibrationValues::unmarshal buffer size not the expected size"
  else
    Except.ok
      { permanent := 0
        hard_iron_bias_xyz := [read32 bs 1, read32 bs 5, read32 bs 9]
        soft_iron_transformation :=
          [read32 bs 13, read32 bs 17, read32 bs 21, read32 bs 25,
           read32 bs 29, read32 bs 33, read32 bs 37, read32 bs 41,
           read32 bs 45] }

/-- `MagneticCalibrationStatus` (id 191, 3 bytes, decode only). -/
structure MagneticCalibrationStatus where
  status : Nat
  progress : Nat
  error : Nat
deriving Repr, DecidableEq

/-- `MagneticCalibrationStatus::unmarshal`. -/
def MagneticCalibrationStatus.unmarshal (bs : List Nat) :
    Except String MagneticCalibrationStatus :=
  if bs.length ≠ 3 then
    Except.error "MagneticCalibrationStatus::unmarshal buffer size not the expected size"
  else
    Except.ok { status := byteAt bs 0, progress := byteAt bs 1, error := byteAt bs 2 }

/-- The header-checksum identity as worded by the spec:
`((packet_id + payload_length + payload_checksum_lsb + payload_checksum_msb) ^ 0xFF) + 1`
computed in 8-bit wraparound (mod 256) arithmetic.  Stated separately from
`Header.computeHeaderChecksum` (which mirrors the C++ `int` arithmetic with
a final `uint8_t` truncation) so the two can be compared. -/
def specHeaderChecksum (h : Header) : Nat :=
  ((((h.packet_id + h.payload_length + h.payload_checksum_lsb
      + h.payload_checksum_msb) % 256) ^^^ 0xFF) + 1) % 256

/-! ## Theorems -/

/-- Xoring with `0xFF` commutes with truncation to a byte. -/
theorem xor255_mod (s : Nat) : (s ^^^ 255) % 256 = s % 256 ^^^ 255 := by
  have h255 : (255 : Nat) = 2 ^ 8 - 1 := by norm_num
  have h256 : (256 : Nat) = 2 ^ 8 := by norm_num
  apply Nat.eq_of_testBit_eq
  intro i
  rw [h255, h256, Nat.testBit_mod_two_pow, Nat.testBit_xor, Nat.testBit_xor,
    Nat.testBit_mod_two_pow, Nat.testBit_two_pow_sub_one]
  by_cases hi : i < 8 <;> simp [hi]

/-- The C++ header checksum agrees with the spec's mod-256 formula. -/
theorem computeHeaderChecksum_eq_spec (h : Header) :
    h.computeHeaderChecksum = specHeaderChecksum h := by
  unfold Header.computeHeaderChecksum specHeaderChecksum
  rw [Nat.add_mod, xor255_mod]

/-- C1: for every packet id and every payload of length at most 255, the
header built by `Header::Header(packet_id, begin, end)` satisfies
`isValid()` and `isPacketValid` over that same payload. -/
theorem claim1_newHeader_valid (id : Nat) (payload : List Nat)
    (hlen : payload.length ≤ 255) :
    (Header.ofPayload id payload).isValid = true ∧
      (Header.ofPayload id payload).isPacketValid payload = true := by
  have hmod : payload.length % 256 = payload.length :=
    Nat.mod_eq_of_lt (Nat.lt_succ_of_le hlen)
  constructor
  · simp [Header.ofPayload, Header.isValid, Header.computeHeaderChecksum]
  · simp [Header.ofPayload, Header.isPacketValid, hmod]

/-- Witness for C1 at the repository test vector: packet id 5 and the
7-byte payload `"0123456"`. -/
theorem claim1_newHeader_valid_witness :
    ([48, 49, 50, 51, 52, 53, 54] : List Nat).length ≤ 255 ∧
      ((Header.ofPayload 5 [48, 49, 50, 51, 52, 53, 54]).isValid = true ∧
        (Header.ofPayload 5 [48, 49, 50, 51, 52, 53, 54]).isPacketValid
          [48, 49, 50, 51, 52, 53, 54] = true) :=
  ⟨by decide, claim1_newHeader_valid 5 [48, 49, 50, 51, 52, 53, 54] (by decide)⟩

/-- C4: the five acknowledge classification predicates partition the seven
known result codes: exactly one holds for each code `0..6`, and each
predicate holds exactly on its spec-mandated codes (protocol errors never
overlapping validation failures). -/
theorem claim4_ack_classification_partition (a : Acknowledge)
    (h : a.result < 7) :
    ((if a.isSuccess = true then 1 else 0)
      + (if a.isPacketValidationFailure = true then 1 else 0)
      + (if a.isProtocolError = true then 1 else 0)
      + (if a.isSystemError = true then 1 else 0)
      + (if a.isNotReady = true then 1 else 0) = 1) ∧
    (a.isSuccess = true ↔ a.result = ACK_SUCCESS) ∧
    (a.isPacketValidationFailure = true ↔
      (a.result = ACK_FAILED_PACKET_VALIDATION_CRC ∨
        a.result = ACK_FAILED_PACKET_VALIDATION_SIZE)) ∧
    (a.isProtocolError = true ↔
      (a.result = ACK_FAILED_OUT_OF_RANGE ∨
        a.result = ACK_FAILED_UNKNOWN_PACKET)) ∧
    (a.isPacketValidationFailure = true → a.isProtocolError = false) ∧
    (a.isSystemError = true ↔ a.result = ACK_FAILED_SYSTEM_FLASH_FAILURE) ∧
    (a.isNotReady = true ↔ a.result = ACK_FAILED_SYSTEM_NOT_READY) := by
  rcases a with ⟨pid, lsb, msb, r⟩
  simp only [Acknowledge.isSuccess, Acknowledge.isPacketValidationFailure,
    Acknowledge.isProtocolError, Acknowledge.isSystemError,
    Acknowledge.isNotReady, ACK_SUCCESS, ACK_FAILED_PACKET_VALIDATION_CRC,
    ACK_FAILED_PACKET_VALIDATION_SIZE, ACK_FAILED_OUT_OF_RANGE,
    ACK_FAILED_SYSTEM_FLASH_FAILURE, ACK_FAILED_SYSTEM_NOT_READY,
    ACK_FAILED_UNKNOWN_PACKET] at h ⊢
  interval_cases r <;> simp

/-- Witness for C4 at result code 3 (`ACK_FAILED_OUT_OF_RANGE`). -/
theorem claim4_ack_classification_partition_witness :
    (Acknowledge.mk 0 0 0 3).result < 7 ∧
      ((Acknowledge.mk 0 0 0 3).isProtocolError = true ↔
        ((Acknowledge.mk 0 0 0 3).result = ACK_FAILED_OUT_OF_RANGE ∨
          (Acknowledge.mk 0 0 0 3).result = ACK_FAILED_UNKNOWN_PACKET)) :=
  ⟨by decide,
    (claim4_ack_classification_partition (Acknowledge.mk 0 0 0 3)
      (by decide)).2.2.2.1⟩

/-- C5: `isMatching` holds iff packet id and both checksum bytes agree, and
replacing any single one of the three identifying fields with a disagreeing
value forces the result to `false`. -/
theorem claim5_isMatching_iff (a : Acknowledge) (hd : Header) :
    (a.isMatching hd = true ↔
      (a.acked_packet_id = hd.packet_id ∧
        a.acked_payload_checksum_lsb = hd.payload_checksum_lsb ∧
        a.acked_payload_checksum_msb = hd.payload_checksum_msb)) ∧
    (∀ x, x ≠ hd.packet_id →
      Acknowledge.isMatching { a with acked_packet_id := x } hd = false) ∧
    (∀ x, x ≠ hd.payload_checksum_lsb →
      Acknowledge.isMatching { a with acked_payload_checksum_lsb := x } hd
        = false) ∧
    (∀ x, x ≠ hd.payload_checksum_msb →
      Acknowledge.isMatching { a with acked_payload_checksum_msb := x } hd
        = false) := by
  refine ⟨by simp [Acknowledge.isMatching, and_assoc], ?_, ?_, ?_⟩ <;>
    intro x hx <;> simp [Acknowledge.isMatching, hx]

/-- Witness for C5: ack `(1, 2, 3)` against a header with id 1 and payload
checksum bytes `(2, 3)`; flipping the id to 9 stops it matching. -/
theorem claim5_isMatching_iff_witness :
    ((Acknowledge.mk 1 2 3 0).isMatching (Header.mk 0 1 0 2 3) = true ↔
      ((Acknowledge.mk 1 2 3 0).acked_packet_id = (Header.mk 0 1 0 2 3).packet_id ∧
        (Acknowledge.mk 1 2 3 0).acked_payload_checksum_lsb
          = (Header.mk 0 1 0 2 3).payload_checksum_lsb ∧
        (Acknowledge.mk 1 2 3 0).acked_payload_checksum_msb
          = (Header.mk 0 1 0 2 3).payload_checksum_msb)) ∧
      Acknowledge.isMatching
        { Acknowledge.mk 1 2 3 0 with acked_packet_id := 9 }
        (Header.mk 0 1 0 2 3) = false :=
  ⟨(claim5_isMatching_iff (Acknowledge.mk 1 2 3 0) (Header.mk 0 1 0 2 3)).1,
    (claim5_isMatching_iff (Acknowledge.mk 1 2 3 0)
      (Header.mk 0 1 0 2 3)).2.1 9 (by decide)⟩

/-- C8: `isValid` holds iff the stored header checksum equals the spec's
mod-256 LRC formula over the other four fields. -/
theorem claim8_isValid_iff_spec_formula (h : Header) :
    h.isValid = true ↔ h.header_checksum = specHeaderChecksum h := by
  rw [Header.isValid, beq_iff_eq, computeHeaderChecksum_eq_spec]

/-- C9: `isPacketValid` is `false` on any payload-length mismatch, and on
matching length it is `true` iff both stored checksum bytes equal the
corresponding bytes of the CRC recomputed over the payload. -/
theorem claim9_isPacketValid_spec (h : Header) (payload : List Nat) :
    (h.payload_length ≠ payload.length → h.isPacketValid payload = false) ∧
    (h.payload_length = payload.length →
      (h.isPacketValid payload = true ↔
        (h.payload_checksum_lsb = crc payload % 256 ∧
          h.payload_checksum_msb = crc payload / 256 % 256))) := by
  constructor
  · intro hne
    simp [Header.isPacketValid, hne]
  · intro heq
    simp [Header.isPacketValid, heq]

/-- Witness for C9: a header announcing payload length 0 rejects a 1-byte
payload, and accepts the empty payload iff its checksum bytes are the CRC
of the empty range (`0xFFFF`, bytes `0xFF`/`0xFF`). -/
theorem claim9_isPacketValid_spec_witness :
    Header.isPacketValid (Header.mk 0 0 0 255 255) [0] = false ∧
      Header.isPacketValid (Header.mk 0 0 0 255 255) [] = true :=
  ⟨(claim9_isPacketValid_spec (Header.mk 0 0 0 255 255) [0]).1 (by decide),
    ((claim9_isPacketValid_spec (Header.mk 0 0 0 255 255) []).2
      (by decide)).mpr (by decide)⟩

/-- C10: `write64` never stores to index 0 of the output, and consequently
a 64-bit value whose least-significant byte is nonzero does not survive a
`write64`/`read64` round trip through a zeroed buffer. -/
theorem claim10_write64_skips_byte0 :
    (∀ (out : List Nat) (v : Nat), byteAt (write64 out v) 0 = byteAt out 0) ∧
    (∀ v : Nat, v < 18446744073709551616 → v % 256 ≠ 0 →
      read64 (write64 (List.replicate 8 0) v) 0 ≠ v) := by
  constructor
  · intro out v
    simp only [write64, byteAt, List.getD_eq_getElem?_getD]
    rw [List.getElem?_set_ne (by omega), List.getElem?_set_ne (by omega),
      List.getElem?_set_ne (by omega), List.getElem?_set_ne (by omega),
      List.getElem?_set_ne (by omega), List.getElem?_set_ne (by omega),
      List.getElem?_set_ne (by omega)]
  · intro v hv hb
    have hval : read64 (write64 (List.replicate 8 0) v) 0
        = 0 + v / 256 % 256 * 256 + v / 65536 % 256 * 65536
          + v / 16777216 % 256 * 16777216
          + v / 4294967296 % 256 * 4294967296
          + v / 1099511627776 % 256 * 1099511627776
          + v / 281474976710656 % 256 * 281474976710656
          + v / 72057594037927936 % 256 * 72057594037927936 := rfl
    rw [hval]
    omega

/-- Witness for C10 at `v = 1`: reading back yields 0, not 1. -/
theorem claim10_write64_skips_byte0_witness :
    byteAt (write64 [9, 0, 0, 0, 0, 0, 0, 0] 1) 0 = byteAt [9, 0, 0, 0, 0, 0, 0, 0] 0 ∧
      read64 (write64 (List.replicate 8 0) 1) 0 ≠ 1 :=
  ⟨claim10_write64_skips_byte0.1 [9, 0, 0, 0, 0, 0, 0, 0] 1,
    claim10_write64_skips_byte0.2 1 (by norm_num) (by decide)⟩

/-- C3: every catalog decoder rejects any buffer whose length violates its
size rule — fixed decoders whenever the length differs from the fixed size
(hence in particular at one byte fewer or one byte more), the two
variable-length decoders whenever the length is below the base size or not
congruent with the record stride — and the resulting `length_error` is a
constant that does not depend on any byte of the buffer. -/
theorem claim3_decoder_length_contract (bs : List Nat) :
    (bs.length ≠ 4 → Acknowledge.unmarshal bs
      = Except.error "Acknowledge::unmarshal buffer size not the expected size") ∧
    (bs.length ≠ 1 → BootMode.unmarshal bs
      = Except.error "BootMode::unmarshal: buffer size is not expected size") ∧
    (bs.length ≠ 24 → DeviceInformation.unmarshal bs
      = Except.error "DeviceInformation::unmarshal: buffer size is not expected size") ∧
    (bs.length ≠ 100 → SystemState.unmarshal bs
      = Except.error "SystemState::unmarshal buffer size not the expected size") ∧
    (bs.length ≠ 8 → UnixTime.unmarshal bs
      = Except.error "SystemState::unmarshal buffer size not the expected size") ∧
    (bs.length ≠ 4 → Status.unmarshal bs
      = Except.error "SystemState::unmarshal buffer size not the expected size") ∧
    (bs.length ≠ 12 → GeodeticPositionStandardDeviation.unmarshal bs
      = Except.error "SystemState::unmarshal buffer size not the expected size") ∧
    (bs.length ≠ 12 → NEDVelocityStandardDeviation.unmarshal bs
      = Except.error "NEDVelocityStandardDeviation::unmarshal buffer size not the expected size") ∧
    (bs.length ≠ 12 → EulerOrientationStandardDeviation.unmarshal bs
      = Except.error "EulerOrientationStandardDeviation::unmarshal buffer size not the expected size") ∧
    (bs.length ≠ 48 → RawSensors.unmarshal bs
      = Except.error "RawSensors::unmarshal buffer size not the expected size") ∧
    (bs.length ≠ 74 → RawGNSS.unmarshal bs
      = Except.error "RawGNSS::unmarshal buffer size not the expected size") ∧
    (bs.length ≠ 13 → Satellites.unmarshal bs
      = Except.error "Satellites::unmarshal buffer size not the expected size") ∧
    (bs.length ≠ 12 → NEDVelocity.unmarshal bs
      = Except.error "NEDVelocity::unmarshal buffer is not of the expected size") ∧
    (bs.length ≠ 12 → BodyVelocity.unmarshal bs
      = Except.error "BodyVelocity::unmarshal buffer is not of the expected size") ∧
    (bs.length ≠ 12 → Acceleration.unmarshal bs
      = Except.error "Acceleration::unmarshal buffer is not of the expected size") ∧
    (bs.length ≠ 16 → BodyAcceleration.unmarshal bs
      = Except.error "BodyAcceleration::unmarshal buffer is not of the expected size") ∧
    (bs.length ≠ 16 → QuaternionOrientation.unmarshal bs
      = Except.error "QuaternionOrientation::unmarshal buffer is not of the expected size") ∧
    (bs.length ≠ 12 → AngularVelocity.unmarshal bs
      = Except.error "AngularVelocity::unmarshal buffer is not of the expected size") ∧
    (bs.length ≠ 12 → AngularAcceleration.unmarshal bs
      = Except.error "AngularAcceleration::unmarshal buffer is not of the expected size") ∧
    (bs.length ≠ 12 → LocalMagneticField.unmarshal bs
      = Except.error "LocalMagneticField::unmarshal buffer is not of the expected size") ∧
    (bs.length ≠ 4 → PacketTimerPeriod.unmarshal bs
      = Except.error "PacketTimerPeriod::unmarshal buffer size not the expected size") ∧
    (bs.length ≠ 17 → BaudRates.unmarshal bs
      = Except.error "BaudRates::unmarshal buffer size not the expected size") ∧
    (bs.length ≠ 73 → Alignment.unmarshal bs
      = Except.error "Alignment::unmarshal buffer size not the expected size") ∧
    (bs.length ≠ 17 → FilterOptions.unmarshal bs
      = Except.error "MagneticCalibrationValues::unmarshal buffer size not the expected size") ∧
    (bs.length ≠ 49 → MagneticCalibrationValues.unmarshal bs
      = Except.error "MagneticCalibrationValues::unmarshal buffer size not the expected size") ∧
    (bs.length ≠ 3 → MagneticCalibrationStatus.unmarshal bs
      = Except.error "MagneticCalibrationStatus::unmarshal buffer size not the expected size") ∧
    (bs.length < 2 → PacketPeriods.unmarshal bs
      = Except.error "PacketPeriods::unmarshal buffer too small") ∧
    (2 ≤ bs.length → (bs.length - 2) % 5 ≠ 0 → PacketPeriods.unmarshal bs
      = Except.error "PacketPeriods::unmarshal expected period list to be a multiple of 5") ∧
    (bs.length % 7 ≠ 0 → DetailedSatellites.unmarshal bs
      = Except.error "Satellites::unmarshal buffer is not a multiple of the SatelliteInfo size") :=
  ⟨fun h => by simp [Acknowledge.unmarshal, h],
   fun h => by simp [BootMode.unmarshal, h],
   fun h => by simp [DeviceInformation.unmarshal, h],
   fun h => by simp [SystemState.unmarshal, h],
   fun h => by simp [UnixTime.unmarshal, h],
   fun h => by simp [Status.unmarshal, h],
   fun h => by simp [GeodeticPositionStandardDeviation.unmarshal, h],
   fun h => by simp [NEDVelocityStandardDeviation.unmarshal, h],
   fun h => by simp [EulerOrientationStandardDeviation.unmarshal, h],
   fun h => by simp [RawSensors.unmarshal, h],
   fun h => by simp [RawGNSS.unmarshal, h],
   fun h => by simp [Satellites.unmarshal, h],
   fun h => by simp [NEDVelocity.unmarshal, h],
   fun h => by simp [BodyVelocity.unmarshal, h],
   fun h => by simp [Acceleration.unmarshal, h],
   fun h => by simp [BodyAcceleration.unmarshal, h],
   fun h => by simp [QuaternionOrientation.unmarshal, h],
   fun h => by simp [AngularVelocity.unmarshal, h],
   fun h => by simp [AngularAcceleration.unmarshal, h],
   fun h => by simp [LocalMagneticField.unmarshal, h],
   fun h => by simp [PacketTimerPeriod.unmarshal, h],
   fun h => by simp [BaudRates.unmarshal, h],
   fun h => by simp [Alignment.unmarshal, h],
   fun h => by simp [FilterOptions.unmarshal, h],
   fun h => by simp [MagneticCalibrationValues.unmarshal, h],
   fun h => by simp [MagneticCalibrationStatus.unmarshal, h],
   fun h => by simp [PacketPeriods.unmarshal, h],
   fun h1 h2 => by simp [PacketPeriods.unmarshal, Nat.not_lt.mpr h1, h2],
   fun h => by simp [DetailedSatellites.unmarshal, h]⟩

/-- Witness for C3 at the one-byte-fewer / one-byte-more boundary of the
4-byte `Acknowledge` and the 100-byte `SystemState` decoders. -/
theorem claim3_decoder_length_contract_witness :
    Acknowledge.unmarshal (List.replicate 3 0)
        = Except.error "Acknowledge::unmarshal buffer size not the expected size" ∧
      Acknowledge.unmarshal (List.replicate 5 0)
        = Except.error "Acknowledge::unmarshal buffer size not the expected size" ∧
      SystemState.unmarshal (List.replicate 99 0)
        = Except.error "SystemState::unmarshal buffer size not the expected size" ∧
      SystemState.unmarshal (List.replicate 101 0)
        = Except.error "SystemState::unmarshal buffer size not the expected size" ∧
      PacketPeriods.unmarshal (List.replicate 3 0)
        = Except.error "PacketPeriods::unmarshal expected period list to be a multiple of 5" ∧
      DetailedSatellites.unmarshal (List.replicate 8 0)
        = Except.error "Satellites::unmarshal buffer is not a multiple of the SatelliteInfo size" :=
  ⟨(claim3_decoder_length_contract (List.replicate 3 0)).1 (by decide),
   (claim3_decoder_length_contract (List.replicate 5 0)).1 (by decide),
   (claim3_decoder_length_contract (List.replicate 99 0)).2.2.2.1 (by decide),
   (claim3_decoder_length_contract (List.replicate 101 0)).2.2.2.1 (by decide),
   (claim3_decoder_length_contract (List.replicate 3 0)).2.2.2.2.2.2.2.2.2.2.2.2.2.2.2.2.2.2.2.2.2.2.2.2.2.2.2.1
     (by decide) (by decide),
   (claim3_decoder_length_contract (List.replicate 8 0)).2.2.2.2.2.2.2.2.2.2.2.2.2.2.2.2.2.2.2.2.2.2.2.2.2.2.2.2
     (by decide)⟩

/-- C6: `PacketPeriods` decode of exactly the 2-byte prefix yields the
empty mapping and fails only below 2 bytes or off-stride;
`DetailedSatellites` decode of the empty buffer yields the empty array and
fails only off its 7-byte stride. -/
theorem claim6_empty_variable_decodes :
    (∀ bs : List Nat, bs.length = 2 →
      PacketPeriods.unmarshal bs = Except.ok []) ∧
    (∀ bs : List Nat, bs.length < 2 →
      PacketPeriods.unmarshal bs
        = Except.error "PacketPeriods::unmarshal buffer too small") ∧
    (∀ bs : List Nat, 2 ≤ bs.length → (bs.length - 2) % 5 ≠ 0 →
      PacketPeriods.unmarshal bs
        = Except.error "PacketPeriods::unmarshal expected period list to be a multiple of 5") ∧
    DetailedSatellites.unmarshal [] = Except.ok [] ∧
    (∀ bs : List Nat, bs.length % 7 ≠ 0 →
      DetailedSatellites.unmarshal bs
        = Except.error "Satellites::unmarshal buffer is not a multiple of the SatelliteInfo size") :=
  ⟨fun bs h => by simp [PacketPeriods.unmarshal, h],
   fun bs h => by simp [PacketPeriods.unmarshal, h],
   fun bs h1 h2 => by simp [PacketPeriods.unmarshal, Nat.not_lt.mpr h1, h2],
   by simp [DetailedSatellites.unmarshal],
   fun bs h => by simp [DetailedSatellites.unmarshal, h]⟩

/-- Witness for C6: a concrete 2-byte prefix and the empty satellite
buffer decode to empty collections. -/
theorem claim6_empty_variable_decodes_witness :
    PacketPeriods.unmarshal [1, 1] = Except.ok [] ∧
      PacketPeriods.unmarshal [0] = Except.error "PacketPeriods::unmarshal buffer too small" :=
  ⟨claim6_empty_variable_decodes.1 [1, 1] (by decide),
    claim6_empty_variable_decodes.2.1 [0] (by decide)⟩

/-- C7: each configuration decoder with a leading permanent flag byte
(`PacketTimerPeriod`, `BaudRates`, `Alignment`, `FilterOptions`,
`MagneticCalibrationValues`) succeeds on any correct-length buffer and
reports `permanent = 0` whatever the input byte at the permanent
position. -/
theorem claim7_decoded_permanent_is_zero :
    (∀ bs : List Nat, bs.length = 4 → ∃ out,
      PacketTimerPeriod.unmarshal bs = Except.ok out ∧ out.permanent = 0) ∧
    (∀ bs : List Nat, bs.length = 17 → ∃ out,
      BaudRates.unmarshal bs = Except.ok out ∧ out.permanent = 0) ∧
    (∀ bs : List Nat, bs.length = 73 → ∃ out,
      Alignment.unmarshal bs = Except.ok out ∧ out.permanent = 0) ∧
    (∀ bs : List Nat, bs.length = 17 → ∃ out,
      FilterOptions.unmarshal bs = Except.ok out ∧ out.permanent = 0) ∧
    (∀ bs : List Nat, bs.length = 49 → ∃ out,
      MagneticCalibrationValues.unmarshal bs = Except.ok out ∧ out.permanent = 0) :=
  ⟨fun bs h => by
      rw [PacketTimerPeriod.unmarshal, if_neg (by omega)]
      exact ⟨_, rfl, rfl⟩,
   fun bs h => by
      rw [BaudRates.unmarshal, if_neg (by omega)]
      exact ⟨_, rfl, rfl⟩,
   fun bs h => by
      rw [Alignment.unmarshal, if_neg (by omega)]
      exact ⟨_, rfl, rfl⟩,
   fun bs h => by
      rw [FilterOptions.unmarshal, if_neg (by omega)]
      exact ⟨_, rfl, rfl⟩,
   fun bs h => by
      rw [MagneticCalibrationValues.unmarshal, if_neg (by omega)]
      exact ⟨_, rfl, rfl⟩⟩

/-- Witness for C7: a 4-byte `PacketTimerPeriod` buffer with the permanent
byte set to 1 still decodes with `permanent = 0`. -/
theorem claim7_decoded_permanent_is_zero_witness :
    ∃ out, PacketTimerPeriod.unmarshal [1, 2, 3, 4] = Except.ok out
      ∧ out.permanent = 0 :=
  claim7_decoded_permanent_is_zero.1 [1, 2, 3, 4] (by decide)

/-- A list of length 3 is a literal triple. -/
theorem list_length_eq_three (l : List Nat) (h : l.length = 3) :
    ∃ a b c, l = [a, b, c] := by
  rcases l with _ | ⟨a, _ | ⟨b, _ | ⟨c, _ | ⟨d, t⟩⟩⟩⟩
  · simp at h
  · simp at h
  · simp at h
  · exact ⟨a, b, c, rfl⟩
  · simp only [List.length_cons] at h
    omega

/-- A list of length 9 is a literal 9-tuple. -/
theorem list_length_eq_nine (l : List Nat) (h : l.length = 9) :
    ∃ a b c d e f g h' i,
      l = [a, b, c, d, e, f, g, h', i] := by
  rcases l with
    _ | ⟨a, _ | ⟨b, _ | ⟨c, _ | ⟨d, _ | ⟨e, _ | ⟨f, _ | ⟨g, _ | ⟨h2,
      _ | ⟨i, _ | ⟨j, t⟩⟩⟩⟩⟩⟩⟩⟩⟩⟩
  · simp at h
  · simp at h
  · simp at h
  · simp at h
  · simp at h
  · simp at h
  · simp at h
  · simp at h
  · simp at h
  · exact ⟨a, b, c, d, e, f, g, h2, i, rfl⟩
  · simp only [List.length_cons] at h
    omega

/-- C2 counterexample: `PacketTimerPeriod` is a fixed-size catalog type
with both `marshal` and `unmarshal`, and the value with `permanent = 1`
(a valid configuration request) does not survive the round trip — the
decoder forces `permanent = 0`. -/
theorem claim2_roundtrip_counterexample :
    PacketTimerPeriod.unmarshal
        (PacketTimerPeriod.marshal (PacketTimerPeriod.mk 1 0 0))
      ≠ Except.ok (PacketTimerPeriod.mk 1 0 0) := by
  have h : PacketTimerPeriod.unmarshal
      (PacketTimerPeriod.marshal (PacketTimerPeriod.mk 1 0 0))
      = Except.ok (PacketTimerPeriod.mk 0 0 0) := rfl
  rw [h]
  simp

/-- C2 (amended): for every fixed-size catalog type with both `marshal`
and `unmarshal`, decode after encode is the identity on every valid value
whose write-only fields are zero — `permanent = 0` for the five
configuration types, and additionally `reserved = 0` for `BaudRates`
(encode writes a literal zero there and decode restores a literal zero);
`BootMode` round-trips for every byte value unconditionally. -/
theorem claim2_roundtrip_amended :
    (∀ b : BootMode, b.boot_mode < 256 →
      BootMode.unmarshal (BootMode.marshal b) = Except.ok b) ∧
    (∀ p : PacketTimerPeriod, p.permanent = 0 → p.utc_synchronization < 256 →
      p.period < 65536 →
      PacketTimerPeriod.unmarshal (PacketTimerPeriod.marshal p)
        = Except.ok p) ∧
    (∀ b : BaudRates, b.permanent = 0 → b.reserved = 0 →
      b.primary_port < 4294967296 → b.gpio < 4294967296 →
      b.auxiliary_rs232 < 4294967296 →
      BaudRates.unmarshal (BaudRates.marshal b) = Except.ok b) ∧
    (∀ a : Alignment, a.permanent = 0 →
      a.dcm.length = 9 → (∀ x ∈ a.dcm, x < 4294967296) →
      a.gnss_antenna_offset_xyz.length = 3 →
      (∀ x ∈ a.gnss_antenna_offset_xyz, x < 4294967296) →
      a.odometer_offset_xyz.length = 3 →
      (∀ x ∈ a.odometer_offset_xyz, x < 4294967296) →
      a.external_data_offset_xyz.length = 3 →
      (∀ x ∈ a.external_data_offset_xyz, x < 4294967296) →
      Alignment.unmarshal (Alignment.marshal a) = Except.ok a) ∧
    (∀ f : FilterOptions, f.permanent = 0 → f.vehicle_type < 256 →
      f.enabled_internal_gnss < 256 → f.reserved_0 < 256 →
      f.enabled_atmospheric_altitude < 256 → f.enabled_velocity_heading < 256 →
      f.enabled_reversing_detection < 256 → f.enabled_motion_analysis < 256 →
      f.reserved_1.length = 9 → (∀ x ∈ f.reserved_1, x < 256) →
      FilterOptions.unmarshal (FilterOptions.marshal f) = Except.ok f) ∧
    (∀ m : MagneticCalibrationValues, m.permanent = 0 →
      m.hard_iron_bias_xyz.length = 3 →
      (∀ x ∈ m.hard_iron_bias_xyz, x < 4294967296) →
      m.soft_iron_transformation.length = 9 →
      (∀ x ∈ m.soft_iron_transformation, x < 4294967296) →
      MagneticCalibrationValues.unmarshal (MagneticCalibrationValues.marshal m)
        = Except.ok m) := by
  refine ⟨?_, ?_, ?_, ?_, ?_, ?_⟩
  · intro b hb
    rcases b with ⟨v⟩
    simp [BootMode.marshal, BootMode.unmarshal, byteAt, Nat.mod_eq_of_lt hb]
  · intro p h0 h1 h2
    rcases p with ⟨perm, utc, per⟩
    simp only at h0 h1 h2
    subst h0
    simp [PacketTimerPeriod.marshal, PacketTimerPeriod.unmarshal, write16,
      read16, byteAt]
    omega
  · intro b h0 hr hp hg ha
    rcases b with ⟨perm, pp, gp, aux, res⟩
    simp only at h0 hr hp hg ha
    subst h0
    subst hr
    simp [BaudRates.marshal, BaudRates.unmarshal, write32, read32, byteAt]
    omega
  · intro a h0 hd hdb hg hgb ho hob he heb
    obtain ⟨perm, dcm, gnss, odo, ext⟩ := a
    simp only at h0 hd hdb hg hgb ho hob he heb
    subst h0
    obtain ⟨d0, d1, d2, d3, d4, d5, d6, d7, d8, rfl⟩ :=
      list_length_eq_nine dcm hd
    obtain ⟨g0, g1, g2, rfl⟩ := list_length_eq_three gnss hg
    obtain ⟨o0, o1, o2, rfl⟩ := list_length_eq_three odo ho
    obtain ⟨e0, e1, e2, rfl⟩ := list_length_eq_three ext he
    simp only [List.mem_cons, List.not_mem_nil, or_false, forall_eq_or_imp,
      forall_eq] at hdb hgb hob heb
    simp [Alignment.marshal, Alignment.unmarshal, write32, read32, byteAt]
    omega
  · intro fo h0 h1 h2 h3 h4 h5 h6 h7 hr hrb
    obtain ⟨perm, vt, eig, r0, eaa, evh, erd, ema, r1⟩ := fo
    simp only at h0 h1 h2 h3 h4 h5 h6 h7 hr hrb
    subst h0
    obtain ⟨x0, x1, x2, x3, x4, x5, x6, x7, x8, rfl⟩ :=
      list_length_eq_nine r1 hr
    simp only [List.mem_cons, List.not_mem_nil, or_false, forall_eq_or_imp,
      forall_eq] at hrb
    simp [FilterOptions.marshal, FilterOptions.unmarshal, byteAt]
    omega
  · intro m h0 hh hhb hs hsb
    obtain ⟨perm, hard, soft⟩ := m
    simp only at h0 hh hhb hs hsb
    subst h0
    obtain ⟨a0, a1, a2, rfl⟩ := list_length_eq_three hard hh
    obtain ⟨s0, s1, s2, s3, s4, s5, s6, s7, s8, rfl⟩ :=
      list_length_eq_nine soft hs
    simp only [List.mem_cons, List.not_mem_nil, or_false, forall_eq_or_imp,
      forall_eq] at hhb hsb
    simp [MagneticCalibrationValues.marshal, MagneticCalibrationValues.unmarshal,
      write32, read32, byteAt]
    omega

/-- Witness for the amended C2 at a concrete `PacketTimerPeriod` value. -/
theorem claim2_roundtrip_amended_witness :
    PacketTimerPeriod.unmarshal
        (PacketTimerPeriod.marshal (PacketTimerPeriod.mk 0 7 770))
      = Except.ok (PacketTimerPeriod.mk 0 7 770) :=
  claim2_roundtrip_amended.2.1 (PacketTimerPeriod.mk 0 7 770) rfl
    (by decide) (by decide)

end protocol
